import Mathlib

/-!
Shallow embedding of the client-side dashboard logic of workspacekit
(src/templates/scripts.py: the MAIN_PAGE_JS and DETAIL_PAGE_JS bundles),
together with theorems settling the frozen claims about it.

The JavaScript is single-threaded and event-driven; we model each
component as pure state-transition functions over explicit state records,
with time advanced explicitly (timers fire when the clock passes their
deadline, repeating intervals reschedule themselves by their period).
-/

namespace WorkspaceKit

/-! ## Server responses

Every mutating endpoint answers a JSON body carrying an `ok` flag and a
`message` string.  A settled fetch is either a parsed response or a
transport error (the promise rejected); `none` stands for the latter. -/

structure ApiResponse where
  ok : Bool
  message : String
  deriving DecidableEq, Repr

abbrev FetchOutcome := Option ApiResponse

/-! ## Byte formatting (DETAIL_PAGE_JS, function formatBytes)

The source compares against 1073741824, 1048576 and 1024 with `>=` and
renders toFixed(1) of b/1073741824 with suffix Gi, toFixed(0) of
b/1048576 with Mi, toFixed(0) of b/1024 with Ki, or the raw count with
B.  The divisors are powers of two,
so the quotients are exact binary fractions for all byte counts below
2^53 and `toFixed` rounds the exact value to the nearest, resolving a
tie upward (ECMA picks the larger candidate); we embed that rounding on
naturals. -/

/-- Round the rational num/den to the nearest natural, a tie rounding up. -/
def roundHalfUp (num den : Nat) : Nat := (2 * num + den) / (2 * den)

/-- Render the JS toFixed(1) of num/den: nearest tenth, one decimal digit. -/
def toFixedOne (num den : Nat) : String :=
  let r := roundHalfUp (10 * num) den
  toString (r / 10) ++ "." ++ toString (r % 10)

def formatBytes (b : Nat) : String :=
  if 1073741824 ≤ b then toFixedOne b 1073741824 ++ "Gi"
  else if 1048576 ≤ b then toString (roundHalfUp b 1048576) ++ "Mi"
  else if 1024 ≤ b then toString (roundHalfUp b 1024) ++ "Ki"
  else toString b ++ "B"

/-! ## Action dispatcher (doAction, doDelete, bulkAction)

doAction disables the initiating button and swaps its label to a
progress label for the duration of the call; once the fetch settles the
button state is as computed below.  `reloadDelay` records a pending
`setTimeout(() => location.reload(), delay)` (on the detail page the
delete success path navigates to the root instead; both are a pending
page transition after the same 2000 ms). -/

structure ControlState where
  disabled : Bool
  label : String
  reloadDelay : Option Nat
  deriving DecidableEq, Repr

/-- Progress label used by doAction: Stopping... for a stop, else Starting... . -/
def progressLabel (a : String) : String :=
  if a = "stop" then "Stopping..." else "Starting..."

/-- State of the per-row action button after the doAction fetch settles,
given the action kind, the original label of the button and the outcome. -/
def doAction (a : String) (origLabel : String) (out : FetchOutcome) : ControlState :=
  match out with
  | some d =>
    if d.ok then { disabled := true, label := progressLabel a, reloadDelay := some 2000 }
    else { disabled := false, label := origLabel, reloadDelay := none }
  | none => { disabled := false, label := origLabel, reloadDelay := none }

/-- State of a delete button after the doDelete fetch settles.  On failure
or transport error the source re-enables the button and restores the
unarmed label Delete; on success it schedules the page transition. -/
def doDeleteSettle (out : FetchOutcome) : ControlState :=
  match out with
  | some d =>
    if d.ok then { disabled := true, label := "Deleting...", reloadDelay := some 2000 }
    else { disabled := false, label := "Delete", reloadDelay := none }
  | none => { disabled := false, label := "Delete", reloadDelay := none }

/-- Outcome of one bulkAction invocation: whether the bulk-bar buttons
are left disabled, the toast shown (message, ok flag), and any pending
reload.  The source returns early on an empty selection and on a refused
delete confirmation; otherwise it disables every button in the bar,
fetches, and only a parsed response reaches the reload scheduling line
(the catch arm shows a toast and nothing else). -/
structure BulkBarState where
  buttonsDisabled : Bool
  toast : Option (String × Bool)
  reloadDelay : Option Nat
  deriving DecidableEq, Repr

def bulkAction (selectedCount : Nat) (action : String) (confirmed : Bool)
    (out : FetchOutcome) : BulkBarState :=
  if selectedCount = 0 then
    { buttonsDisabled := false, toast := none, reloadDelay := none }
  else if action = "delete" ∧ confirmed = false then
    { buttonsDisabled := false, toast := none, reloadDelay := none }
  else
    match out with
    | some d =>
      { buttonsDisabled := true, toast := some (d.message, d.ok), reloadDelay := some 2000 }
    | none =>
      { buttonsDisabled := true, toast := some ("Bulk action failed", false), reloadDelay := none }

/-! ## Creation log polling (DETAIL_PAGE_JS, startCreationLogPoll)

`creationPoll = setInterval(async () => \x7b ... \x7d, 2000)` fetches the
creation-log endpoint; a parsed body may carry `lines` (the full buffer,
assigned — not appended — to the viewer), `status`, and `creating`.
A falsy `creating` clears the interval, writes Done and schedules one
reload after 3000 ms; the catch arm writes Poll error and nothing else.
One `pollTick` is one firing of the interval callback with its settled
fetch (`none` = transport error); a cleared interval never ticks again,
which the `active` flag captures. -/

def creationPollPeriodMs : Nat := 2000
def creationReloadDelayMs : Nat := 3000

structure CreationResponse where
  lines : Option (List String)
  status : Option String
  creating : Bool
  deriving DecidableEq, Repr

structure PollState where
  viewer : String
  statusText : String
  active : Bool
  requests : Nat
  reloads : Nat
  deriving DecidableEq, Repr

def pollInit : PollState :=
  { viewer := "", statusText := "Polling...", active := true, requests := 0, reloads := 0 }

def pollTick (s : PollState) (r : Option CreationResponse) : PollState :=
  if s.active = false then s
  else
    match r with
    | none => { s with requests := s.requests + 1, statusText := "Poll error" }
    | some d =>
      let s1 := { s with requests := s.requests + 1 }
      let s2 :=
        match d.lines with
        | some l => { s1 with viewer := String.intercalate "\n" l }
        | none => s1
      let s3 :=
        match d.status with
        | some st => { s2 with statusText := "Status: " ++ st }
        | none => s2
      if d.creating = false then
        { s3 with active := false, statusText := "Done", reloads := s3.reloads + 1 }
      else s3

def pollRun (s : PollState) : List (Option CreationResponse) → PollState
  | [] => s
  | r :: rs => pollRun (pollTick s r) rs

/-- A tick input that leaves the loop polling: a transport error or a
response still reporting `creating`. -/
def keepsPolling (r : Option CreationResponse) : Bool :=
  match r with
  | none => true
  | some d => d.creating

/-! ## Live refresh scheduler (MAIN_PAGE_JS rt / DETAIL_PAGE_JS detailRefresh)

`let rt = setInterval(() => location.reload(), 10000)` on the listing
page (15000 on the detail page); a mousedown runs `clearInterval(rt)`
and a mouseup reinstalls a fresh interval.  The state keeps the time,
the next fire deadline of the live interval (none once cleared), its
period, and the times at which a reload fired.  `schedAdvance` moves the
clock forward, firing the interval at each elapsed deadline and
rescheduling it by its period. -/

def listingRefreshPeriodMs : Nat := 10000
def detailRefreshPeriodMs : Nat := 15000

structure Sched where
  now : Nat
  deadline : Option Nat
  period : Nat
  reloads : List Nat
  deriving DecidableEq, Repr

def schedInit (p : Nat) : Sched :=
  { now := 0, deadline := some p, period := p, reloads := [] }

def schedAdvance (s : Sched) (δ : Nat) : Sched :=
  let T := s.now + δ
  match s.deadline with
  | none => { s with now := T }
  | some d =>
    if T < d ∨ s.period = 0 then { s with now := T }
    else
      let k := (T - d) / s.period + 1
      { s with now := T,
               deadline := some (d + s.period * k),
               reloads := s.reloads ++ (List.range k).map (fun i => d + s.period * i) }

/-- The mousedown listener: clearInterval on the stored handle. -/
def schedDown (s : Sched) : Sched := { s with deadline := none }

/-- The mouseup listener: a fresh setInterval, first fire one period out. -/
def schedUp (s : Sched) : Sched := { s with deadline := some (s.now + s.period) }

/-! ## Detail page: refresh interval, terminal session, log stream

The detail script keeps the interval handle in the variable
`detailRefresh`; every `setInterval` there immediately assigns the new
handle to that variable, so `dpSetInterval` folds the assignment in.
The browser timer table is the `intervals` list of (handle, next fire
time) pairs, every one with the 15000 ms period; `clearInterval(h)`
removes the entry with handle `h` and nothing else, so an interval whose
handle no longer sits in `detailRefresh` can never be cleared again.

Terminal session (connectTerminal / disconnectTerminal): the guard
`if (termWs) \x7b disconnectTerminal(); return \x7d` gives the connect
control toggle semantics.  The `onopen` handler clears the stored
interval; the `onclose` handler (local close and remote close alike)
installs a fresh one.  `disconnectTerminal` itself only closes the
socket, drops the handles and restores the controls — the interval is
touched by the close event, not by it.

Log stream (startLogStream / stopLogStream): toggle on `evtSource`;
neither function reads or writes `detailRefresh` or any interval. -/

structure DPage where
  now : Nat
  nextId : Nat
  intervals : List (Nat × Nat)
  detailRefresh : Nat
  termWs : Bool
  termStatus : String
  connectBtnShown : Bool
  evtSource : Bool
  streamBtnLabel : String
  logStatus : String
  reloads : List Nat
  deriving DecidableEq, Repr

/-- setInterval(() => location.reload(), 15000) with the fresh handle
assigned to the detailRefresh variable. -/
def dpSetInterval (s : DPage) : DPage :=
  { s with nextId := s.nextId + 1,
           intervals := s.intervals ++ [(s.nextId, s.now + detailRefreshPeriodMs)],
           detailRefresh := s.nextId }

/-- clearInterval(detailRefresh): drop the entry with the stored handle. -/
def dpClearRefresh (s : DPage) : DPage :=
  { s with intervals := s.intervals.filter (fun q => q.1 ≠ s.detailRefresh) }

/-- Page load: the top-level `let detailRefresh = setInterval(...)`. -/
def dpInit : DPage :=
  dpSetInterval
    { now := 0, nextId := 1, intervals := [], detailRefresh := 0,
      termWs := false, termStatus := "Disconnected", connectBtnShown := true,
      evtSource := false, streamBtnLabel := "Start streaming", logStatus := "",
      reloads := [] }

def dpMousedown (s : DPage) : DPage := dpClearRefresh s

def dpMouseup (s : DPage) : DPage := dpSetInterval s

def disconnectTerminal (s : DPage) : DPage :=
  { s with termWs := false, connectBtnShown := true, termStatus := "Disconnected" }

def connectTerminal (s : DPage) : DPage :=
  if s.termWs then disconnectTerminal s
  else { s with termWs := true, termStatus := "Connecting..." }

/-- The websocket onopen handler: flip controls, clear the interval. -/
def onTermOpen (s : DPage) : DPage :=
  dpClearRefresh { s with termStatus := "Connected", connectBtnShown := false }

/-- The websocket onclose handler (fires for local and remote closes):
flip controls back, install a fresh refresh interval. -/
def onTermClose (s : DPage) : DPage :=
  dpSetInterval { s with termStatus := "Disconnected", connectBtnShown := true }

def stopLogStream (s : DPage) : DPage :=
  { s with evtSource := false, streamBtnLabel := "Start streaming" }

def startLogStream (s : DPage) : DPage :=
  if s.evtSource then stopLogStream s
  else { s with evtSource := true, streamBtnLabel := "Stop streaming",
                logStatus := "Connected" }

/-- Advance the clock by δ, firing every live interval at each of its
elapsed deadlines and rescheduling it by the period. -/
def dpAdvance (s : DPage) (δ : Nat) : DPage :=
  let T := s.now + δ
  let p := detailRefreshPeriodMs
  let fired := s.intervals.map fun q =>
    if T < q.2 then (q, ([] : List Nat))
    else
      let k := (T - q.2) / p + 1
      ((q.1, q.2 + p * k), (List.range k).map (fun i => q.2 + p * i))
  { s with now := T,
           intervals := fired.map Prod.fst,
           reloads := s.reloads ++ (fired.map Prod.snd).flatten }

/-! ## Delete button confirmation arming (confirmDelete / doDelete)

`confirmDelete` fires `doDelete` when `btn.dataset.armed` is set,
otherwise it arms the button and schedules a `setTimeout(..., 3000)`
that disarms if the button is still armed when it fires.  Nothing ever
calls clearTimeout, so every arming click appends one more pending
disarm timer.  `doDelete` disables the button and sets the in-progress
label without clearing the armed marker; only its failure and error
paths clear it. -/

structure DelBtn where
  now : Nat
  armed : Bool
  label : String
  className : String
  disabled : Bool
  timers : List Nat
  inFlight : Bool
  reloadDelay : Option Nat
  deriving DecidableEq, Repr

def delBtnInit : DelBtn :=
  { now := 0, armed := false, label := "Delete", className := "btn btn-outline-red",
    disabled := false, timers := [], inFlight := false, reloadDelay := none }

/-- A click on the delete button: fire doDelete when armed, else arm and
schedule a disarm timeout 3000 ms out (appended — never cancelling a
pending one). -/
def confirmDeleteClick (s : DelBtn) : DelBtn :=
  if s.armed then
    { s with disabled := true, label := "Deleting...", inFlight := true }
  else
    { s with armed := true, label := "Confirm?", className := "btn btn-confirm",
             timers := s.timers ++ [s.now + 3000] }

/-- One disarm timeout firing: the callback disarms only if the armed
marker is still set; it never touches the disabled flag. -/
def disarmTimerFire (s : DelBtn) (t : Nat) : DelBtn :=
  let s1 := { s with timers := s.timers.erase t }
  if s1.armed then
    { s1 with armed := false, label := "Delete", className := "btn btn-outline-red" }
  else s1

/-- Advance the clock by δ, firing every pending disarm timeout whose
deadline has arrived, in scheduling order (deadlines are appended in
increasing order, one per arming click). -/
def delBtnAdvance (s : DelBtn) (δ : Nat) : DelBtn :=
  let T := s.now + δ
  let due := s.timers.filter (fun t => decide (t ≤ T))
  due.foldl (fun st t => disarmTimerFire st t) { s with now := T }

/-- The doDelete fetch settling: success schedules the page transition;
an ok:false body and a transport error alike re-enable the button,
restore the Delete label and clear the armed marker. -/
def doDeleteSettleBtn (s : DelBtn) (out : FetchOutcome) : DelBtn :=
  match out with
  | some d =>
    if d.ok then { s with inFlight := false, reloadDelay := some 2000 }
    else { s with inFlight := false, disabled := false, armed := false,
                  label := "Delete", className := "btn btn-outline-red" }
  | none => { s with inFlight := false, disabled := false, armed := false,
                     label := "Delete", className := "btn btn-outline-red" }

/-! ## Sparkline renderer (DETAIL_PAGE_JS, renderSparkline)

Canvas constants W=200, H=40, pad=1.  For a series of values the source
computes `minV = Math.min(...vals)`, `maxV = Math.max(...vals)`,
`range = maxV - minV || 1` and maps sample i of n to
  x = pad + (i/(n-1||1))*(W-2*pad),
  y = H - pad - ((v-minV)/range)*(H-2*pad),
so a larger y is lower on the canvas: y = H - pad is the bottom edge of
the drawable band and y = pad its top.  Coordinates are exact rationals
here; the source formats them with toFixed(1) when printing the path
string, which does not move which sample is the highest point.  The
value labels show the last, minimum and maximum sample values. -/

def sparkW : ℚ := 200
def sparkH : ℚ := 40
def sparkPad : ℚ := 1

/-- Math.min over a non-empty series, first element split off. -/
def listMinQ (v : ℚ) (vs : List ℚ) : ℚ := vs.foldl min v

/-- Math.max over a non-empty series, first element split off. -/
def listMaxQ (v : ℚ) (vs : List ℚ) : ℚ := vs.foldl max v

/-- The y coordinate of one sample value. -/
def sparkY (minV range v : ℚ) : ℚ :=
  sparkH - sparkPad - ((v - minV) / range) * (sparkH - 2 * sparkPad)

/-- The map of the source over (sample, index) pairs, the x
denominator `data.length-1||1` precomputed. -/
def sparkPoints (minV range denom : ℚ) : Nat → List ℚ → List (ℚ × ℚ)
  | _, [] => []
  | i, y :: ys =>
    (sparkPad + ((i : ℚ) / denom) * (sparkW - 2 * sparkPad), sparkY minV range y)
      :: sparkPoints minV range denom (i + 1) ys

structure Sparkline where
  points : List (ℚ × ℚ)
  lastLabel : ℚ
  minLabel : ℚ
  maxLabel : ℚ
  deriving DecidableEq, Repr

def renderSparkline (vals : List ℚ) : Sparkline :=
  match vals with
  | [] => { points := [], lastLabel := 0, minLabel := 0, maxLabel := 0 }
  | v :: vs =>
    let minV := listMinQ v vs
    let maxV := listMaxQ v vs
    let range := if maxV - minV = 0 then 1 else maxV - minV
    let n := (v :: vs).length
    let denom : ℚ := if n - 1 = 0 then 1 else ((n - 1 : Nat) : ℚ)
    { points := sparkPoints minV range denom 0 (v :: vs),
      lastLabel := (v :: vs).getLast (List.cons_ne_nil v vs),
      minLabel := minV,
      maxLabel := maxV }

/-- The delete-button trace behind the C4 analysis: arm at 0 ms, confirm
at 100 ms (request in flight, disarm timeout for 3000 ms still pending),
failure response at 200 ms, re-arm at 300 ms (second timeout for
3300 ms appended). -/
def reArmedDelBtn : DelBtn :=
  confirmDeleteClick (delBtnAdvance
    (doDeleteSettleBtn (delBtnAdvance
      (confirmDeleteClick (delBtnAdvance (confirmDeleteClick delBtnInit) 100)) 100)
      (some { ok := false, message := "err" })) 100)

/-! ## Helper lemmas -/

theorem pollRun_append (xs ys : List (Option CreationResponse)) (s : PollState) :
    pollRun s (xs ++ ys) = pollRun (pollRun s xs) ys := by
  induction xs generalizing s with
  | nil => rfl
  | cons x xs ih => simpa [pollRun] using ih (pollTick s x)

theorem pollTick_inactive (s : PollState) (r : Option CreationResponse)
    (h : s.active = false) : pollTick s r = s := by
  simp [pollTick, h]

theorem pollRun_inactive (rs : List (Option CreationResponse)) (s : PollState)
    (h : s.active = false) : pollRun s rs = s := by
  induction rs with
  | nil => rfl
  | cons r rs ih => simpa [pollRun, pollTick_inactive s r h] using ih

theorem pollTick_alive (s : PollState) (r : Option CreationResponse)
    (hs : s.active = true) (hr : keepsPolling r = true) :
    (pollTick s r).active = true ∧
    (pollTick s r).requests = s.requests + 1 ∧
    (pollTick s r).reloads = s.reloads := by
  cases r with
  | none => simp [pollTick, hs]
  | some d =>
    rcases d with ⟨lines, status, creating⟩
    simp only [keepsPolling] at hr
    cases lines <;> cases status <;> simp [pollTick, hs, hr]

theorem pollTick_requests (s : PollState) (r : Option CreationResponse)
    (hs : s.active = true) : (pollTick s r).requests = s.requests + 1 := by
  cases r with
  | none => simp [pollTick, hs]
  | some d =>
    rcases d with ⟨lines, status, creating⟩
    cases lines <;> cases status <;> cases creating <;> simp [pollTick, hs]

theorem pollRun_alive (rs : List (Option CreationResponse)) :
    ∀ s : PollState, s.active = true → (∀ r ∈ rs, keepsPolling r = true) →
      (pollRun s rs).active = true ∧
      (pollRun s rs).requests = s.requests + rs.length ∧
      (pollRun s rs).reloads = s.reloads := by
  induction rs with
  | nil => intro s hs _; exact ⟨hs, rfl, rfl⟩
  | cons r rs ih =>
    intro s hs hall
    have hr : keepsPolling r = true := hall r (List.mem_cons_self r rs)
    have h1 := pollTick_alive s r hs hr
    have h2 := ih (pollTick s r) h1.1 (fun x hx => hall x (List.mem_cons_of_mem r hx))
    refine ⟨h2.1, ?_, ?_⟩
    · simp only [pollRun]
      rw [h2.2.1, h1.2.1, List.length_cons]
      omega
    · simp only [pollRun]
      rw [h2.2.2, h1.2.2]

theorem pollTick_terminal (s : PollState) (d : CreationResponse)
    (hs : s.active = true) (hd : d.creating = false) :
    (pollTick s (some d)).active = false ∧
    (pollTick s (some d)).requests = s.requests + 1 ∧
    (pollTick s (some d)).statusText = "Done" ∧
    (pollTick s (some d)).reloads = s.reloads + 1 := by
  rcases d with ⟨lines, status, creating⟩
  simp only at hd
  cases lines <;> cases status <;> simp [pollTick, hs, hd]

/-! ## Claims -/

/-- Claim C1 counterexample.  The claim states that after any settled
outcome the initiating control is reloading or re-enabled; but when the
bulk fetch throws (transport error), bulkAction only shows a toast: the
bulk-bar buttons stay disabled and no reload is pending. -/
theorem c1_counterexample_bulk_transport :
    ¬ ((bulkAction 1 "start" true none).reloadDelay ≠ none ∨
       (bulkAction 1 "start" true none).buttonsDisabled = false) := by decide

/-- Claim C1, amended: per-row action buttons and delete buttons always
settle into a pending reload (success) or a re-enabled control with its
original label (ok:false and transport error alike); bulk-bar buttons
reach a pending reload after every parsed response, but a transport
error leaves them disabled with no reload pending. -/
theorem c1_amended_settled_outcomes :
    (∀ (a orig : String) (out : FetchOutcome),
        (doAction a orig out).reloadDelay = some 2000 ∨
        ((doAction a orig out).disabled = false ∧ (doAction a orig out).label = orig)) ∧
    (∀ out : FetchOutcome,
        (doDeleteSettle out).reloadDelay = some 2000 ∨
        ((doDeleteSettle out).disabled = false ∧ (doDeleteSettle out).label = "Delete")) ∧
    (∀ (n : Nat) (action : String) (c : Bool) (d : ApiResponse),
        (bulkAction n action c (some d)).reloadDelay = some 2000 ∨
        (bulkAction n action c (some d)).buttonsDisabled = false) ∧
    (∀ (n : Nat) (action : String) (c : Bool),
        (bulkAction n action c none).reloadDelay = none) ∧
    (bulkAction 1 "start" true none).buttonsDisabled = true := by
  refine ⟨?_, ?_, ?_, ?_, by decide⟩
  · intro a orig out
    cases out with
    | none => exact Or.inr ⟨rfl, rfl⟩
    | some d =>
      cases hd : d.ok with
      | true => exact Or.inl (by simp [doAction, hd])
      | false => exact Or.inr (by simp [doAction, hd])
  · intro out
    cases out with
    | none => exact Or.inr ⟨rfl, rfl⟩
    | some d =>
      cases hd : d.ok with
      | true => exact Or.inl (by simp [doDeleteSettle, hd])
      | false => exact Or.inr (by simp [doDeleteSettle, hd])
  · intro n action c d
    by_cases h0 : n = 0
    · exact Or.inr (by simp [bulkAction, h0])
    · by_cases h1 : action = "delete" ∧ c = false
      · exact Or.inr (by simp [bulkAction, h0, h1])
      · exact Or.inl (by simp [bulkAction, h0, h1])
  · intro n action c
    by_cases h0 : n = 0
    · simp [bulkAction, h0]
    · by_cases h1 : action = "delete" ∧ c = false <;> simp [bulkAction, h0, h1]

/-- Claim C5: in creation-poll mode the request interval is 2000 ms;
every parsed response carrying lines replaces the viewer buffer with
exactly those lines; and on the first response with creating false the
loop goes inactive (later ticks issue no request), the status is Done,
and exactly one reload is pending, 3000 ms out. -/
theorem c5_creation_poll :
    creationPollPeriodMs = 2000 ∧ creationReloadDelayMs = 3000 ∧
    (∀ (s : PollState) (d : CreationResponse) (l : List String),
        s.active = true → d.lines = some l →
        (pollTick s (some d)).viewer = String.intercalate "\n" l) ∧
    (∀ (pre post : List (Option CreationResponse)) (d : CreationResponse),
        (∀ r ∈ pre, keepsPolling r = true) → d.creating = false →
        (pollRun pollInit (pre ++ some d :: post)).active = false ∧
        (pollRun pollInit (pre ++ some d :: post)).requests = pre.length + 1 ∧
        (pollRun pollInit (pre ++ some d :: post)).statusText = "Done" ∧
        (pollRun pollInit (pre ++ some d :: post)).reloads = 1) := by
  refine ⟨rfl, rfl, ?_, ?_⟩
  · intro s d l hs hl
    rcases d with ⟨lines, status, creating⟩
    simp only at hl
    subst hl
    cases status <;> cases creating <;> simp [pollTick, hs]
  · intro pre post d hpre hd
    have h1 := pollRun_alive pre pollInit rfl hpre
    have hterm := pollTick_terminal (pollRun pollInit pre) d h1.1 hd
    have hrest : pollRun pollInit (pre ++ some d :: post)
        = pollTick (pollRun pollInit pre) (some d) := by
      rw [pollRun_append]
      show pollRun (pollTick (pollRun pollInit pre) (some d)) post = _
      exact pollRun_inactive post _ hterm.1
    rw [hrest]
    refine ⟨hterm.1, ?_, hterm.2.2.1, ?_⟩
    · rw [hterm.2.1, h1.2.1]
      simp [pollInit]
    · rw [hterm.2.2.2, h1.2.2]
      rfl

/-- Claim C5 witness: a concrete three-tick run — a creating response,
a transport error, then a creating:false response followed by one more
simulated tick that the stopped loop ignores. -/
theorem c5_creation_poll_witness :
    (pollTick pollInit (some ⟨some ["a", "b"], none, true⟩)).viewer
      = String.intercalate "\n" ["a", "b"] ∧
    (pollRun pollInit ([some ⟨some ["x"], some "pulling", true⟩, none]
        ++ some ⟨some ["x", "y"], some "ready", false⟩
        :: [some ⟨some ["z"], none, true⟩])).active = false ∧
    (pollRun pollInit ([some ⟨some ["x"], some "pulling", true⟩, none]
        ++ some ⟨some ["x", "y"], some "ready", false⟩
        :: [some ⟨some ["z"], none, true⟩])).requests = 3 ∧
    (pollRun pollInit ([some ⟨some ["x"], some "pulling", true⟩, none]
        ++ some ⟨some ["x", "y"], some "ready", false⟩
        :: [some ⟨some ["z"], none, true⟩])).reloads = 1 := by
  have h := c5_creation_poll.2.2.2
      [some ⟨some ["x"], some "pulling", true⟩, none]
      [some ⟨some ["z"], none, true⟩]
      ⟨some ["x", "y"], some "ready", false⟩ (by decide) rfl
  exact ⟨c5_creation_poll.2.2.1 pollInit ⟨some ["a", "b"], none, true⟩ ["a", "b"] rfl rfl,
         h.1, h.2.1, h.2.2.2⟩

/-- Claim C8: formatBytes chooses its unit by the 1024-based thresholds
2^30 (Gi, one decimal), 2^20 (Mi), 2^10 (Ki), below which the raw count
is shown with B; and the three quoted values format as stated. -/
theorem c8_formatBytes :
    (∀ b : Nat, 1073741824 ≤ b → ∃ p, formatBytes b = p ++ "Gi") ∧
    (∀ b : Nat, 1048576 ≤ b → b < 1073741824 → ∃ p, formatBytes b = p ++ "Mi") ∧
    (∀ b : Nat, 1024 ≤ b → b < 1048576 → ∃ p, formatBytes b = p ++ "Ki") ∧
    (∀ b : Nat, b < 1024 → formatBytes b = toString b ++ "B") ∧
    formatBytes 1073741824 = "1.0Gi" ∧
    formatBytes 1048576 = "1Mi" ∧
    formatBytes 512 = "512B" := by
  refine ⟨?_, ?_, ?_, ?_, by decide, by decide, by decide⟩
  · intro b hb
    refine ⟨toFixedOne b 1073741824, ?_⟩
    unfold formatBytes
    rw [if_pos hb]
  · intro b h1 h2
    refine ⟨toString (roundHalfUp b 1048576), ?_⟩
    unfold formatBytes
    rw [if_neg (by omega), if_pos h1]
  · intro b h1 h2
    refine ⟨toString (roundHalfUp b 1024), ?_⟩
    unfold formatBytes
    rw [if_neg (by omega), if_neg (by omega), if_pos h1]
  · intro b h
    unfold formatBytes
    rw [if_neg (by omega), if_neg (by omega), if_neg (by omega)]

/-- Claim C8 witness: the threshold clauses applied at 2 Gi, 2 Mi, 2 Ki
and 512 bytes. -/
theorem c8_formatBytes_witness :
    (∃ p, formatBytes 2147483648 = p ++ "Gi") ∧
    (∃ p, formatBytes 2097152 = p ++ "Mi") ∧
    (∃ p, formatBytes 2048 = p ++ "Ki") ∧
    formatBytes 512 = toString 512 ++ "B" :=
  ⟨c8_formatBytes.1 2147483648 (by omega),
   c8_formatBytes.2.1 2097152 (by omega) (by omega),
   c8_formatBytes.2.2.1 2048 (by omega) (by omega),
   c8_formatBytes.2.2.2.1 512 (by omega)⟩

/-- Claim C9: with a non-empty selection and the delete confirmation
granted when required, every parsed bulk response — ok true or false —
leaves a reload pending 2000 ms out, while a transport error leaves no
reload pending. -/
theorem c9_bulk_reload_regardless_of_ok :
    ∀ (n : Nat) (action : String) (confirmed : Bool) (d : ApiResponse),
      0 < n → ¬(action = "delete" ∧ confirmed = false) →
      (bulkAction n action confirmed (some d)).reloadDelay = some 2000 ∧
      (bulkAction n action confirmed none).reloadDelay = none := by
  intro n action confirmed d hn hc
  have h0 : ¬ n = 0 := by omega
  constructor <;> simp [bulkAction, h0, hc]

/-- Claim C9 witness: two selected rows, a start action, an ok:false
response against a transport error. -/
theorem c9_bulk_reload_regardless_of_ok_witness :
    (bulkAction 2 "start" true (some ⟨false, "boom"⟩)).reloadDelay = some 2000 ∧
    (bulkAction 2 "start" true none).reloadDelay = none :=
  c9_bulk_reload_regardless_of_ok 2 "start" true ⟨false, "boom"⟩ (by omega) (by decide)

/-- Claim C10: a transport error during a creation-poll tick leaves the
loop active with the status set to the poll-error message, the next tick
still issues a request, and a tick deactivates the loop only when its
input is a parsed response whose creating field is false. -/
theorem c10_poll_error_keeps_polling :
    (∀ s : PollState, s.active = true →
        (pollTick s none).active = true ∧
        (pollTick s none).statusText = "Poll error" ∧
        (pollTick s none).requests = s.requests + 1) ∧
    (∀ (s : PollState) (r : Option CreationResponse), s.active = true →
        (pollTick (pollTick s none) r).requests = s.requests + 2) ∧
    (∀ (s : PollState) (r : Option CreationResponse),
        (pollTick s r).active = false →
        s.active = false ∨ ∃ d, r = some d ∧ d.creating = false) := by
  refine ⟨?_, ?_, ?_⟩
  · intro s hs
    simp [pollTick, hs]
  · intro s r hs
    have h1 : (pollTick s none).active = true := by simp [pollTick, hs]
    have h2 : (pollTick s none).requests = s.requests + 1 := by simp [pollTick, hs]
    rw [pollTick_requests _ r h1, h2]
  · intro s r h
    by_cases hs : s.active = true
    · right
      cases r with
      | none =>
        exfalso
        rw [show (pollTick s none).active = true from by simp [pollTick, hs]] at h
        simp at h
      | some d =>
        refine ⟨d, rfl, ?_⟩
        cases hd : d.creating
        · rfl
        · exfalso
          have : (pollTick s (some d)).active = true :=
            (pollTick_alive s (some d) hs (by simp [keepsPolling, hd])).1
          rw [this] at h
          simp at h
    · left
      exact Bool.not_eq_true s.active |>.mp hs

/-- Claim C10 witness: the error-tick clauses at the initial poll state,
and the termination clause at a creating:false response. -/
theorem c10_poll_error_keeps_polling_witness :
    ((pollTick pollInit none).active = true ∧
     (pollTick pollInit none).statusText = "Poll error" ∧
     (pollTick pollInit none).requests = pollInit.requests + 1) ∧
    (pollTick (pollTick pollInit none) none).requests = pollInit.requests + 2 ∧
    (pollInit.active = false ∨
      ∃ d, (some ⟨none, none, false⟩ : Option CreationResponse) = some d ∧
        d.creating = false) :=
  ⟨c10_poll_error_keeps_polling.1 pollInit rfl,
   c10_poll_error_keeps_polling.2.1 pollInit none rfl,
   c10_poll_error_keeps_polling.2.2 pollInit (some ⟨none, none, false⟩) (by decide)⟩

theorem dpAdvance_no_intervals (s : DPage) (δ : Nat) (h : s.intervals = []) :
    (dpAdvance s δ).reloads = s.reloads := by
  simp [dpAdvance, h]

/-- Claim C6: the reload interval is 10000 ms on the listing page and
15000 ms on the detail page; left alone, the scheduler fires at every
multiple of its period; after a mousedown cleared the interval no amount
of elapsed time fires a reload; a mouseup re-arms, nothing fires before
one full period has passed, and advancing exactly one period fires
exactly one reload at that boundary. -/
theorem c6_refresh_scheduler :
    listingRefreshPeriodMs = 10000 ∧ detailRefreshPeriodMs = 15000 ∧
    (∀ p k : Nat, 0 < p →
        (schedAdvance (schedInit p) (k * p)).reloads
          = (List.range k).map (fun i => p + p * i)) ∧
    (∀ (s : Sched) (δ : Nat), (schedAdvance (schedDown s) δ).reloads = s.reloads) ∧
    (∀ (s : Sched) (δ : Nat), 0 < s.period → δ < s.period →
        (schedAdvance (schedUp s) δ).reloads = s.reloads) ∧
    (∀ s : Sched, 0 < s.period →
        (schedAdvance (schedUp s) s.period).reloads
          = s.reloads ++ [s.now + s.period]) := by
  refine ⟨rfl, rfl, ?_, ?_, ?_, ?_⟩
  · intro p k hp
    cases k with
    | zero => simp [schedAdvance, schedInit, hp]
    | succ m =>
      have hple : p ≤ (m + 1) * p := Nat.le_mul_of_pos_left p (Nat.succ_pos m)
      have hcond : ¬ (0 + (m + 1) * p < p ∨ p = 0) := by
        push_neg
        exact ⟨by simpa using hple, by omega⟩
      have hk : ((m + 1) * p - p) / p + 1 = m + 1 := by
        rw [Nat.add_mul, Nat.one_mul, Nat.add_sub_cancel,
            Nat.mul_div_cancel _ hp]
      simp only [schedAdvance, schedInit]
      rw [if_neg hcond]
      simp [hk]
  · intro s δ
    simp [schedAdvance, schedDown]
  · intro s δ hp hδ
    simp only [schedAdvance, schedUp]
    rw [if_pos (Or.inl (by omega))]
  · intro s hp
    simp only [schedAdvance, schedUp]
    rw [if_neg (by omega)]
    have h0 : (s.now + s.period - (s.now + s.period)) / s.period + 1 = 1 := by
      rw [Nat.sub_self, Nat.zero_div]
    rw [h0, show List.range 1 = [0] from rfl]
    simp

/-- Claim C6 witness: three unimpeded 10 s boundaries on the listing
page; on the detail page a mouseup followed by 14999 ms fires nothing
and the full 15000 ms fires the single boundary reload. -/
theorem c6_refresh_scheduler_witness :
    (schedAdvance (schedInit 10000) (3 * 10000)).reloads
      = (List.range 3).map (fun i => 10000 + 10000 * i) ∧
    (schedAdvance (schedUp (schedInit 15000)) 14999).reloads
      = (schedInit 15000).reloads ∧
    (schedAdvance (schedUp (schedInit 15000)) (schedInit 15000).period).reloads
      = (schedInit 15000).reloads ++ [(schedInit 15000).now + (schedInit 15000).period] :=
  ⟨c6_refresh_scheduler.2.2.1 10000 3 (by omega),
   c6_refresh_scheduler.2.2.2.2.1 (schedInit 15000) 14999 (by decide) (by decide),
   c6_refresh_scheduler.2.2.2.2.2 (schedInit 15000) (by decide)⟩

/-- Claim C7: connectTerminal on a connected page is exactly
disconnectTerminal (toggle), so two connect calls in a row equal one
connect then one disconnect; once the socket opens the stored refresh
interval is cleared and no timed reload can fire; the close handler
re-installs the interval, whose next boundary fires one reload again. -/
theorem c7_terminal_toggle :
    (∀ s : DPage, s.termWs = true → connectTerminal s = disconnectTerminal s) ∧
    (∀ s : DPage, s.termWs = false →
        connectTerminal (connectTerminal s) = disconnectTerminal (connectTerminal s)) ∧
    (onTermOpen (connectTerminal dpInit)).intervals = [] ∧
    (∀ δ : Nat, (dpAdvance (onTermOpen (connectTerminal dpInit)) δ).reloads = []) ∧
    (onTermClose (onTermOpen (connectTerminal dpInit))).intervals
      = [(2, detailRefreshPeriodMs)] ∧
    (dpAdvance (onTermClose (onTermOpen (connectTerminal dpInit)))
        detailRefreshPeriodMs).reloads = [detailRefreshPeriodMs] := by
  have toggle : ∀ s : DPage, s.termWs = true → connectTerminal s = disconnectTerminal s := by
    intro s h
    simp [connectTerminal, h]
  refine ⟨toggle, ?_, by decide, ?_, by decide, by decide⟩
  · intro s h
    exact toggle (connectTerminal s) (by simp [connectTerminal, disconnectTerminal, h])
  · intro δ
    rw [dpAdvance_no_intervals _ δ (by decide)]
    decide

/-- Claim C7 witness: the toggle clause applied on the page right after
a first connect call, and the suspended scheduler advanced 40 s with no
reload fired. -/
theorem c7_terminal_toggle_witness :
    connectTerminal (connectTerminal dpInit) = disconnectTerminal (connectTerminal dpInit) ∧
    (dpAdvance (onTermOpen (connectTerminal dpInit)) 40000).reloads = [] :=
  ⟨c7_terminal_toggle.1 (connectTerminal dpInit) (by decide),
   c7_terminal_toggle.2.2.2.1 40000⟩

/-- Claim C2 counterexample.  First trace: a tailing log stream is
active, yet the refresh interval it never touched fires a reload at
15000 ms.  Second trace: a terminal session is open (its open handler
did clear the interval), but a pointer-down/pointer-up pair during the
session re-installs the interval and the reload fires while the session
is still connected.  Both contradict the claimed suspension. -/
theorem c2_counterexample_sessions :
    ((dpAdvance (startLogStream dpInit) 15000).evtSource = true ∧
     (dpAdvance (startLogStream dpInit) 15000).reloads = [15000]) ∧
    ((dpAdvance (dpMouseup (dpMousedown (onTermOpen (connectTerminal dpInit))))
        15000).termWs = true ∧
     (dpAdvance (dpMouseup (dpMousedown (onTermOpen (connectTerminal dpInit))))
        15000).reloads = [15000]) := by decide

/-- Claim C2, amended: the terminal open handler clears the stored
refresh interval and while it stays cleared no timed reload fires, with
the close handler re-installing it; but the suspension is not
pointer-proof — every mouseup installs a fresh interval, session or not
— and the tailing log stream functions never touch the interval table
at all, so a tailing session does not suspend the scheduler. -/
theorem c2_amended_suspension :
    ((onTermOpen (connectTerminal dpInit)).intervals = [] ∧
     ∀ δ : Nat, (dpAdvance (onTermOpen (connectTerminal dpInit)) δ).reloads = []) ∧
    (∀ s : DPage, (startLogStream s).intervals = s.intervals ∧
        (stopLogStream s).intervals = s.intervals) ∧
    (∀ s : DPage, (dpMouseup s).intervals.length = s.intervals.length + 1) ∧
    (onTermClose (onTermOpen (connectTerminal dpInit))).intervals ≠ [] := by
  refine ⟨⟨by decide, ?_⟩, ?_, ?_, by decide⟩
  · intro δ
    rw [dpAdvance_no_intervals _ δ (by decide)]
    decide
  · intro s
    refine ⟨?_, by simp [stopLogStream]⟩
    by_cases h : s.evtSource = true <;> simp [startLogStream, stopLogStream, h]
  · intro s
    simp [dpMouseup, dpSetInterval]

theorem listMinQ_mem (v : ℚ) (vs : List ℚ) : listMinQ v vs ∈ v :: vs := by
  induction vs generalizing v with
  | nil => simp [listMinQ]
  | cons x xs ih =>
    have h := ih (min v x)
    simp only [listMinQ, List.foldl_cons]
    rcases List.mem_cons.mp h with h1 | h1
    · rcases min_choice v x with hm | hm
      · rw [show xs.foldl min (min v x) = listMinQ (min v x) xs from rfl, h1, hm]
        exact List.mem_cons_self _ _
      · rw [show xs.foldl min (min v x) = listMinQ (min v x) xs from rfl, h1, hm]
        exact List.mem_cons_of_mem _ (List.mem_cons_self _ _)
    · exact List.mem_cons_of_mem _ (List.mem_cons_of_mem _ h1)

theorem listMaxQ_mem (v : ℚ) (vs : List ℚ) : listMaxQ v vs ∈ v :: vs := by
  induction vs generalizing v with
  | nil => simp [listMaxQ]
  | cons x xs ih =>
    have h := ih (max v x)
    simp only [listMaxQ, List.foldl_cons]
    rcases List.mem_cons.mp h with h1 | h1
    · rcases max_choice v x with hm | hm
      · rw [show xs.foldl max (max v x) = listMaxQ (max v x) xs from rfl, h1, hm]
        exact List.mem_cons_self _ _
      · rw [show xs.foldl max (max v x) = listMaxQ (max v x) xs from rfl, h1, hm]
        exact List.mem_cons_of_mem _ (List.mem_cons_self _ _)
    · exact List.mem_cons_of_mem _ (List.mem_cons_of_mem _ h1)

theorem listMinQ_le (v : ℚ) (vs : List ℚ) : ∀ x ∈ v :: vs, listMinQ v vs ≤ x := by
  induction vs generalizing v with
  | nil =>
    intro x hx
    rw [List.mem_singleton] at hx
    exact le_of_eq (by rw [hx]; rfl)
  | cons y ys ih =>
    intro x hx
    have hstep : listMinQ v (y :: ys) = listMinQ (min v y) ys := rfl
    have hbase : listMinQ (min v y) ys ≤ min v y :=
      ih (min v y) (min v y) (List.mem_cons_self _ _)
    rcases List.mem_cons.mp hx with h | h
    · rw [hstep, h]
      exact le_trans hbase (min_le_left _ _)
    · rcases List.mem_cons.mp h with h2 | h2
      · rw [hstep, h2]
        exact le_trans hbase (min_le_right _ _)
      · rw [hstep]
        exact ih (min v y) x (List.mem_cons_of_mem _ h2)

theorem le_listMaxQ (v : ℚ) (vs : List ℚ) : ∀ x ∈ v :: vs, x ≤ listMaxQ v vs := by
  induction vs generalizing v with
  | nil =>
    intro x hx
    rw [List.mem_singleton] at hx
    exact le_of_eq (by rw [hx]; rfl)
  | cons y ys ih =>
    intro x hx
    have hstep : listMaxQ v (y :: ys) = listMaxQ (max v y) ys := rfl
    have hbase : max v y ≤ listMaxQ (max v y) ys :=
      ih (max v y) (max v y) (List.mem_cons_self _ _)
    rcases List.mem_cons.mp hx with h | h
    · rw [hstep, h]
      exact le_trans (le_max_left _ _) hbase
    · rcases List.mem_cons.mp h with h2 | h2
      · rw [hstep, h2]
        exact le_trans (le_max_right _ _) hbase
      · rw [hstep]
        exact ih (max v y) x (List.mem_cons_of_mem _ h2)

theorem sparkY_at_min (minV r : ℚ) : sparkY minV r minV = sparkH - sparkPad := by
  unfold sparkY
  simp

theorem sparkY_at_max (minV maxV : ℚ) (h : minV ≠ maxV) :
    sparkY minV (maxV - minV) maxV = sparkPad := by
  have hne : maxV - minV ≠ 0 := sub_ne_zero.mpr (Ne.symm h)
  unfold sparkY sparkH sparkPad
  rw [div_self hne, one_mul]
  norm_num

theorem sparkY_bounds (minV maxV y : ℚ) (h1 : minV ≤ y) (h2 : y ≤ maxV)
    (h : minV < maxV) :
    sparkPad ≤ sparkY minV (maxV - minV) y ∧
    sparkY minV (maxV - minV) y ≤ sparkH - sparkPad := by
  have hr : (0 : ℚ) < maxV - minV := by linarith
  have ht0 : (0 : ℚ) ≤ (y - minV) / (maxV - minV) := div_nonneg (by linarith) (le_of_lt hr)
  have ht1 : (y - minV) / (maxV - minV) ≤ 1 := (div_le_one hr).mpr (by linarith)
  unfold sparkY sparkH sparkPad
  constructor <;> nlinarith [ht0, ht1]

theorem sparkPoints_snd (minV r denom : ℚ) (ys : List ℚ) :
    ∀ (i : Nat) (p : ℚ × ℚ), p ∈ sparkPoints minV r denom i ys →
      ∃ y ∈ ys, p.2 = sparkY minV r y := by
  induction ys with
  | nil => intro i p hp; simp [sparkPoints] at hp
  | cons y ys ih =>
    intro i p hp
    rcases List.mem_cons.mp hp with h | h
    · exact ⟨y, List.mem_cons_self _ _, by rw [h]⟩
    · obtain ⟨z, hz, hzz⟩ := ih (i + 1) p h
      exact ⟨z, List.mem_cons_of_mem _ hz, hzz⟩

theorem sparkPoints_of_mem (minV r denom : ℚ) (ys : List ℚ) :
    ∀ (i : Nat) (y : ℚ), y ∈ ys →
      ∃ p ∈ sparkPoints minV r denom i ys, p.2 = sparkY minV r y := by
  induction ys with
  | nil => intro i y hy; simp at hy
  | cons z zs ih =>
    intro i y hy
    rcases List.mem_cons.mp hy with rfl | h
    · exact ⟨(sparkPad + ((i : ℚ) / denom) * (sparkW - 2 * sparkPad), sparkY minV r y),
        List.mem_cons_self _ _, rfl⟩
    · obtain ⟨p, hp, hpp⟩ := ih (i + 1) y h
      exact ⟨p, List.mem_cons_of_mem _ hp, hpp⟩

theorem renderSparkline_cons (v : ℚ) (vs : List ℚ) :
    (renderSparkline (v :: vs)).points
      = sparkPoints (listMinQ v vs)
          (if listMaxQ v vs - listMinQ v vs = 0 then 1 else listMaxQ v vs - listMinQ v vs)
          (if (v :: vs).length - 1 = 0 then 1 else (((v :: vs).length - 1 : Nat) : ℚ))
          0 (v :: vs) := rfl

theorem listMinQ_replicate (v : ℚ) (k : Nat) : listMinQ v (List.replicate k v) = v := by
  induction k with
  | zero => rfl
  | succ n ih => simpa [listMinQ, List.replicate_succ] using ih

theorem listMaxQ_replicate (v : ℚ) (k : Nat) : listMaxQ v (List.replicate k v) = v := by
  induction k with
  | zero => rfl
  | succ n ih => simpa [listMaxQ, List.replicate_succ] using ih

/-- Claim C3 counterexample: on the constant series [5, 5, 5] every
rendered point sits at y = H - pad = 39, the bottom edge of the canvas,
not at the mid-line H / 2 = 20 the claim asserts. -/
theorem c3_counterexample_constant_series :
    (renderSparkline [5, 5, 5]).points.map Prod.snd
        = [sparkH - sparkPad, sparkH - sparkPad, sparkH - sparkPad] ∧
    ¬ (renderSparkline [5, 5, 5]).points.map Prod.snd
        = [sparkH / 2, sparkH / 2, sparkH / 2] := by
  have hmin : listMinQ 5 [5, 5] = 5 := by simp [listMinQ]
  have hmax : listMaxQ 5 [5, 5] = 5 := by simp [listMaxQ]
  have hpts : (renderSparkline [5, 5, 5]).points = sparkPoints 5 1 2 0 [5, 5, 5] := by
    rw [renderSparkline_cons, hmin, hmax]
    norm_num
  constructor
  · rw [hpts]
    simp only [sparkPoints, sparkY]
    norm_num [sparkW, sparkH, sparkPad]
  · rw [hpts]
    simp only [sparkPoints, sparkY]
    norm_num [sparkW, sparkH, sparkPad]

/-- Claim C3, amended: some rendered point always sits at the bottom
edge y = H - pad (the minimum sample); when the series is not constant
some point sits at the top edge y = pad (the maximum sample) and every
point lies inside the band, so min maps to bottom and max to top; in
the degenerate constant case (range defaulting to 1) the path is a flat
line at the bottom edge, not the mid-line; for the series [5, 1, 9, 3]
the min label is 1, the max label is 9, and the highest point of the
path, y = 1, is the third point — the sample valued 9. -/
theorem c3_amended_sparkline :
    (∀ (v : ℚ) (vs : List ℚ),
        ∃ p ∈ (renderSparkline (v :: vs)).points, p.2 = sparkH - sparkPad) ∧
    (∀ (v : ℚ) (vs : List ℚ), listMinQ v vs ≠ listMaxQ v vs →
        (∃ p ∈ (renderSparkline (v :: vs)).points, p.2 = sparkPad) ∧
        ∀ p ∈ (renderSparkline (v :: vs)).points,
          sparkPad ≤ p.2 ∧ p.2 ≤ sparkH - sparkPad) ∧
    (∀ (v : ℚ) (k : Nat),
        ∀ p ∈ (renderSparkline (List.replicate (k + 1) v)).points,
          p.2 = sparkH - sparkPad) ∧
    ((renderSparkline [5, 1, 9, 3]).minLabel = 1 ∧
     (renderSparkline [5, 1, 9, 3]).maxLabel = 9 ∧
     (renderSparkline [5, 1, 9, 3]).points
       = [(1, 20), (67, 39), (133, 1), (199, 59 / 2)] ∧
     ∀ p ∈ (renderSparkline [5, 1, 9, 3]).points, 1 ≤ p.2) := by
  refine ⟨?_, ?_, ?_, ?_⟩
  · intro v vs
    rw [renderSparkline_cons]
    obtain ⟨p, hp, hpy⟩ :=
      sparkPoints_of_mem (listMinQ v vs) _ _ (v :: vs) 0 (listMinQ v vs) (listMinQ_mem v vs)
    exact ⟨p, hp, by rw [hpy, sparkY_at_min]⟩
  · intro v vs h
    have hne : listMaxQ v vs - listMinQ v vs ≠ 0 := sub_ne_zero.mpr (Ne.symm h)
    have hlt : listMinQ v vs < listMaxQ v vs :=
      lt_of_le_of_ne (listMinQ_le v vs (listMaxQ v vs) (listMaxQ_mem v vs)) h
    constructor
    · rw [renderSparkline_cons, if_neg hne]
      obtain ⟨p, hp, hpy⟩ :=
        sparkPoints_of_mem (listMinQ v vs) (listMaxQ v vs - listMinQ v vs) _ (v :: vs) 0
          (listMaxQ v vs) (listMaxQ_mem v vs)
      exact ⟨p, hp, by rw [hpy, sparkY_at_max _ _ h]⟩
    · intro p hp
      rw [renderSparkline_cons, if_neg hne] at hp
      obtain ⟨y, hy, hpy⟩ := sparkPoints_snd _ _ _ (v :: vs) 0 p hp
      rw [hpy]
      exact sparkY_bounds _ _ y (listMinQ_le v vs y hy) (le_listMaxQ v vs y hy) hlt
  · intro v k p hp
    rw [List.replicate_succ, renderSparkline_cons] at hp
    obtain ⟨y, hy, hpy⟩ := sparkPoints_snd _ _ _ _ 0 p hp
    have hyv : y = v := by
      rcases List.mem_cons.mp hy with h | h
      · exact h
      · exact List.eq_of_mem_replicate h
    rw [hpy, hyv, listMinQ_replicate]
    exact sparkY_at_min v _
  · have hmin : listMinQ 5 [1, 9, 3] = 1 := by
      simp only [listMinQ, List.foldl_cons, List.foldl_nil]
      norm_num [min_def]
    have hmax : listMaxQ 5 [1, 9, 3] = 9 := by
      simp only [listMaxQ, List.foldl_cons, List.foldl_nil]
      norm_num [max_def]
    have hpts : (renderSparkline [5, 1, 9, 3]).points
        = [(1, 20), (67, 39), (133, 1), (199, 59 / 2)] := by
      rw [renderSparkline_cons, hmin, hmax]
      norm_num
      simp only [sparkPoints, sparkY]
      norm_num [sparkW, sparkH, sparkPad]
    refine ⟨?_, ?_, hpts, ?_⟩
    · show listMinQ 5 [1, 9, 3] = 1
      exact hmin
    · show listMaxQ 5 [1, 9, 3] = 9
      exact hmax
    · intro p hp
      rw [hpts] at hp
      simp only [List.mem_cons, List.not_mem_nil, or_false] at hp
      rcases hp with rfl | rfl | rfl | rfl <;> norm_num

/-- Claim C3 witness: the bottom-edge clause at [5, 1, 9, 3], the
top-edge and band clauses at the same non-constant series, and the
flat-bottom clause at the constant series [7, 7]. -/
theorem c3_amended_sparkline_witness :
    (∃ p ∈ (renderSparkline ((5 : ℚ) :: [1, 9, 3])).points, p.2 = sparkH - sparkPad) ∧
    (∃ p ∈ (renderSparkline ((5 : ℚ) :: [1, 9, 3])).points, p.2 = sparkPad) ∧
    (∀ p ∈ (renderSparkline (List.replicate (1 + 1) (7 : ℚ))).points,
        p.2 = sparkH - sparkPad) :=
  ⟨c3_amended_sparkline.1 5 [1, 9, 3],
   (c3_amended_sparkline.2.1 5 [1, 9, 3] (by
      simp only [listMinQ, listMaxQ, List.foldl_cons, List.foldl_nil]
      norm_num [min_def, max_def])).1,
   c3_amended_sparkline.2.2.1 7 1⟩

/-- Claim C4 counterexample: arm at 0 ms, confirm at 100 ms, failure
response at 200 ms, re-arm at 300 ms.  Two disarm timers are now
pending (deadlines 3000 and 3300), violating the single-timer clause,
and the stale first timer disarms the re-armed control at 3000 ms —
2700 ms after arming, not the claimed 3000 ms. -/
theorem c4_counterexample_stale_timer :
    reArmedDelBtn.armed = true ∧ reArmedDelBtn.label = "Confirm?" ∧
    reArmedDelBtn.now = 300 ∧ reArmedDelBtn.timers = [3000, 3300] ∧
    (delBtnAdvance reArmedDelBtn 2700).armed = false ∧
    (delBtnAdvance reArmedDelBtn 2700).now = 3000 ∧
    (delBtnAdvance reArmedDelBtn 2700).label = "Delete" := by decide

/-- Claim C4, amended: a first click in the Unarmed state arms the
control (label Confirm?) and appends a 3000 ms disarm timer; from an
idle timer-free control, a second click within 3000 ms fires the delete
action (disabled, in-progress label) and with no second click the
control returns to the unarmed label exactly at 3000 ms; a failed
dispatched action returns the control to Unarmed.  But arming never
cancels previously pending timers (the source has no clearTimeout), so
after a fired-and-failed action a re-armed control can hold two pending
timers and be disarmed early by the stale one. -/
theorem c4_amended_arming :
    (∀ s : DelBtn, s.armed = false →
        (confirmDeleteClick s).armed = true ∧
        (confirmDeleteClick s).label = "Confirm?" ∧
        (confirmDeleteClick s).timers = s.timers ++ [s.now + 3000]) ∧
    (∀ δ : Nat, δ < 3000 →
        (delBtnAdvance (confirmDeleteClick delBtnInit) δ).armed = true ∧
        (confirmDeleteClick (delBtnAdvance (confirmDeleteClick delBtnInit) δ)).inFlight
          = true ∧
        (confirmDeleteClick (delBtnAdvance (confirmDeleteClick delBtnInit) δ)).disabled
          = true ∧
        (confirmDeleteClick (delBtnAdvance (confirmDeleteClick delBtnInit) δ)).label
          = "Deleting...") ∧
    ((delBtnAdvance (confirmDeleteClick delBtnInit) 3000).armed = false ∧
     (delBtnAdvance (confirmDeleteClick delBtnInit) 3000).label = "Delete" ∧
     (delBtnAdvance (confirmDeleteClick delBtnInit) 3000).timers = []) ∧
    (∀ (s : DelBtn) (out : FetchOutcome),
        (out = none ∨ ∃ d, out = some d ∧ d.ok = false) →
        (doDeleteSettleBtn s out).armed = false ∧
        (doDeleteSettleBtn s out).disabled = false ∧
        (doDeleteSettleBtn s out).label = "Delete") := by
  refine ⟨?_, ?_, by decide, ?_⟩
  · intro s h
    simp [confirmDeleteClick, h]
  · intro δ h
    have hdec : decide (3000 ≤ δ) = false := decide_eq_false (by omega)
    have h1 : delBtnAdvance (confirmDeleteClick delBtnInit) δ
        = { confirmDeleteClick delBtnInit with now := δ } := by
      simp only [delBtnAdvance, confirmDeleteClick, delBtnInit]
      simp [hdec]
    rw [h1]
    refine ⟨by simp [confirmDeleteClick, delBtnInit], ?_, ?_, ?_⟩ <;>
      simp [confirmDeleteClick, delBtnInit]
  · intro s out hout
    rcases hout with rfl | ⟨d, rfl, hd⟩
    · exact ⟨rfl, rfl, rfl⟩
    · simp [doDeleteSettleBtn, hd]

/-- Claim C4 witness: the arming clause at the pristine button, the
confirm-within-window clause at 100 ms, and the failure clause at a
transport error. -/
theorem c4_amended_arming_witness :
    ((confirmDeleteClick delBtnInit).armed = true ∧
     (confirmDeleteClick delBtnInit).label = "Confirm?" ∧
     (confirmDeleteClick delBtnInit).timers
       = delBtnInit.timers ++ [delBtnInit.now + 3000]) ∧
    (confirmDeleteClick (delBtnAdvance (confirmDeleteClick delBtnInit) 100)).label
      = "Deleting..." ∧
    (doDeleteSettleBtn delBtnInit none).armed = false :=
  ⟨c4_amended_arming.1 delBtnInit rfl,
   (c4_amended_arming.2.1 100 (by omega)).2.2.2,
   (c4_amended_arming.2.2.2 delBtnInit none (Or.inl rfl)).1⟩

/-- Claim C1 witness: the per-row clause evaluated at a stop button that
hit a transport error, and the bulk clause at an ok:false response. -/
theorem c1_amended_settled_outcomes_witness :
    ((doAction "stop" "Stop" none).reloadDelay = some 2000 ∨
     ((doAction "stop" "Stop" none).disabled = false ∧
      (doAction "stop" "Stop" none).label = "Stop")) ∧
    ((bulkAction 2 "stop" true (some ⟨false, "denied"⟩)).reloadDelay = some 2000 ∨
     (bulkAction 2 "stop" true (some ⟨false, "denied"⟩)).buttonsDisabled = false) :=
  ⟨c1_amended_settled_outcomes.1 "stop" "Stop" none,
   c1_amended_settled_outcomes.2.2.1 2 "stop" true ⟨false, "denied"⟩⟩

/-- Claim C2 witness: the log-stream and mouseup clauses evaluated on
the freshly loaded detail page. -/
theorem c2_amended_suspension_witness :
    ((startLogStream dpInit).intervals = dpInit.intervals ∧
     (stopLogStream dpInit).intervals = dpInit.intervals) ∧
    (dpMouseup dpInit).intervals.length = dpInit.intervals.length + 1 :=
  ⟨c2_amended_suspension.2.1 dpInit, c2_amended_suspension.2.2.1 dpInit⟩

end WorkspaceKit
